import Mathlib

/-!
Shallow embedding of the QDMA device-management core
(`src/runtime_src/driver/xclng/drm/xocl/lib/libqdma/xdev.c`): the device
registry (`xdev_list_*`), handle validation (`xdev_check_hndl`), BAR
mapping (`xdev_map_bars` / `xdev_unmap_bars`) and the lifecycle state
machine (`qdma_device_open` / `online` / `offline` / `close`) together
with the configuration accessors.

Modelling conventions:
- C pointers are modelled by `Nat` addresses; `0` is the NULL pointer.
  A `struct xlnx_dma_dev` carries its own address in the field `id`
  (the value `(unsigned long)xdev`, i.e. the opaque device handle).
- The intrusive doubly-linked registry list is a `List xlnx_dma_dev`
  in insertion order; the registry mutex serialises each operation, so
  each C function becomes a pure function from registry (and system
  state) to registry.
- External collaborators (PCI platform primitives, `qdma_device_init`
  / `qdma_device_cleanup` / `qdma_device_attributes_get`, the mailbox
  and SR-IOV subsystems, declared in this file but defined outside it)
  are modelled by an `Oracle` of their return values plus an event
  trace `List Ev` recording every collaborator call that was made.
- `#ifdef __QDMA_VF__` / `#ifdef CONFIG_PCI_IOV` become a `Build`
  record of the two flags.
-/

/-- Embedding of `EINVAL` errno (the C code returns `-EINVAL` on validation failures). -/
def EINVAL : Int := 22

/-- Modelled from the spec: bit positions of the bus/slot pack used for
`conf.bdf` ("bus in high bits, slot in middle bits, function in low
bits").  `PCI_SHIFT_BUS`/`PCI_SHIFT_DEV` are defined in a header that is
not under `src/`; the exact shift amounts are immaterial to the claims. -/
def PCI_SHIFT_BUS : Nat := 12

/-- Modelled from the spec: the slot-field shift of the `bdf` pack
(see `PCI_SHIFT_BUS`). -/
def PCI_SHIFT_DEV : Nat := 4

/-- Linux `PCI_SLOT(devfn)`: `((devfn) >> 3) & 0x1f`. -/
def PCI_SLOT (devfn : Nat) : Nat := (devfn >>> 3) &&& 0x1f

/-- Linux `PCI_FUNC(devfn)`: `(devfn) & 0x07`. -/
def PCI_FUNC (devfn : Nat) : Nat := devfn &&& 0x07

/-- Modelled from the spec: the configuration-state enumeration
(`enum cfg_state`, declared in `xdev.h` which is not under `src/`) is
the ordered range `CFG_UNCONFIGURED .. CFG_USER` ("unconfigured →
user-configured"), with the usual C ordinals 0 and 1. -/
def CFG_UNCONFIGURED : Nat := 0

/-- Modelled from the spec: ordinal of `CFG_USER` (see
`CFG_UNCONFIGURED`). -/
def CFG_USER : Nat := 1

/-- Embedding of `QDMA_OPERATION_SUCCESSFUL` (error-code header is not under `src/`;
the spec only requires success = 0 and errors negative). -/
def QDMA_OPERATION_SUCCESSFUL : Int := 0

/-- Modelled from the spec: a negative error code for a NULL module
name / configuration argument. -/
def QDMA_ERR_INVALID_INPUT_PARAM : Int := -1

/-- Modelled from the spec: a negative error code for a NULL pci device. -/
def QDMA_ERR_INVALID_PCI_DEV : Int := -2

/-- Modelled from the spec: a negative error code for a pci device that
already has a registered `xlnx_dma_dev`. -/
def QDMA_ERR_PCI_DEVICE_ALREADY_ATTACHED : Int := -3

/-- Modelled from the spec: a negative error code for a device with
neither MM nor ST mode enabled. -/
def QDMA_ERR_INTERFACE_NOT_ENABLED_IN_DEVICE : Int := -4

/-- Embedding of `QDMA_CONFIG_BAR`: the config BAR index, hard coded to 0
(source line 319: "hard code the dma config bar to be 0"). -/
def QDMA_CONFIG_BAR : Nat := 0

/-- Embedding of `STM_BAR` from `qdma_regs.h` (not under `src/`); the exact index is
immaterial to the claims. -/
def STM_BAR : Nat := 2

/-- Embedding of `STM_ENABLED_DEVICE` pci device id from `qdma_regs.h` (not under
`src/`); the exact value is immaterial to the claims. -/
def STM_ENABLED_DEVICE : Nat := 0x6aba

/-- Embedding of `STM_SUPPORTED_REV` from `qdma_regs.h` (not under `src/`); the exact
value is immaterial to the claims. -/
def STM_SUPPORTED_REV : Nat := 4

/-- A `struct pci_dev` as seen by this file: its address (pointer
identity, 0 = NULL), `bus->number`, `devfn`, and the `device` id used
for the STM check. -/
structure pci_dev where
  addr : Nat
  busNumber : Nat
  devfn : Nat
  device : Nat
deriving DecidableEq, Repr, Inhabited

/-- Embedding of `struct qdma_dev_conf` (the fields this file reads or writes).
`pdev` is a pointer in C; it is embedded by value, with pointer
comparison being comparison of `pdev.addr`. -/
structure qdma_dev_conf where
  pdev : pci_dev
  bdf : Nat
  idx : Nat
  name : List Char
  bar_num_config : Int
  bar_num_user : Int
  qsets_max : Nat
  vf_max : Nat
  cur_cfg_state : Nat
deriving DecidableEq, Repr, Inhabited

/-- Embedding of `struct xlnx_dma_dev` (the fields this file reads or writes).
`id` is the object's own address, i.e. the opaque handle value
`(unsigned long)xdev`; `offline` is the `XDEV_FLAG_OFFLINE` bit of the
flags word; `regs` / `stm_regs` record whether the corresponding BAR
pointer is non-NULL. -/
structure xlnx_dma_dev where
  id : Nat
  conf : qdma_dev_conf
  offline : Bool
  regs : Bool
  stm_regs : Bool
  stm_en : Bool
  stm_rev : Nat
  mod_name : List Char
  flr_prsnt : Bool
  st_mode_en : Bool
  mm_mode_en : Bool
  mm_channel_max : Nat
deriving DecidableEq, Repr, Inhabited

/-- Build configuration: `vf` = `__QDMA_VF__`, `pci_iov` =
`CONFIG_PCI_IOV`. -/
structure Build where
  vf : Bool
  pci_iov : Bool
deriving DecidableEq, Repr, Inhabited

/-- Embedding of `xdev_list_add` (source lines 128-166).  Computes `bdf`, appends the
new device at the tail, then runs the rescan loop.  Note two features
of the source loop kept faithfully here: both assignments of the index
target `xdev->conf.idx` (the new device, never the scanned `_xdev`),
and line 162 refreshes `last_dev` from `xdev` (the new device's slot)
rather than from the scanned `_xdev`.  Finally the new device's
configuration state is set to `CFG_UNCONFIGURED`. -/
def xdev_list_add (vf : Bool) (xdev : xlnx_dma_dev) (xdev_list : List xlnx_dma_dev) :
    List xlnx_dma_dev :=
  let bdf := (xdev.conf.pdev.busNumber <<< PCI_SHIFT_BUS) |||
             (PCI_SLOT xdev.conf.pdev.devfn <<< PCI_SHIFT_DEV) |||
             PCI_FUNC xdev.conf.pdev.devfn
  let d0 := { xdev with conf := { xdev.conf with bdf := bdf } }
  let l := xdev_list ++ [d0]
  let step : (Nat × Nat × Nat) → xlnx_dma_dev → (Nat × Nat × Nat) := fun s x =>
    let idx := s.1
    let last_bus := s.2.1
    let last_dev := s.2.2
    let reset :=
      if vf then last_bus ≠ x.conf.pdev.busNumber
      else last_bus ≠ x.conf.pdev.busNumber ∨ last_dev ≠ PCI_SLOT x.conf.pdev.devfn
    let idx2 := (if reset then 0 else idx) + 1
    (idx2, x.conf.pdev.busNumber, PCI_SLOT d0.conf.pdev.devfn)
  let r := l.foldl step (d0.conf.idx, 0, 0)
  xdev_list ++ [{ d0 with conf :=
    { d0.conf with idx := r.1, cur_cfg_state := CFG_UNCONFIGURED } }]

/-- Embedding of `xdev_list_remove` (source lines 178-183): unlink the node; the
node is identified by its address `hndl`. -/
def xdev_list_remove (xdev_list : List xlnx_dma_dev) (hndl : Nat) : List xlnx_dma_dev :=
  xdev_list.filter (fun d => d.id ≠ hndl)

/-- Embedding of `xdev_find_by_pdev` (source lines 194-207): first registered device
whose `conf.pdev` pointer equals the given one. -/
def xdev_find_by_pdev (xdev_list : List xlnx_dma_dev) (pdev : Nat) :
    Option xlnx_dma_dev :=
  xdev_list.find? (fun d => d.conf.pdev.addr = pdev)

/-- Embedding of `xdev_find_by_idx` (source lines 218-231): first registered device
whose `conf.bdf` equals the given value (the source compares `bdf`, not
`idx`, to its `idx` argument). -/
def xdev_find_by_idx (xdev_list : List xlnx_dma_dev) (idx : Nat) :
    Option xlnx_dma_dev :=
  xdev_list.find? (fun d => d.conf.bdf = idx)

/-- Embedding of `xdev_check_hndl` (source lines 243-270): NULL pdev, no registered
device for this pdev, handle different from the found device's address,
or found device's stored pdev different from the supplied one, each
return `-EINVAL`; otherwise 0. -/
def xdev_check_hndl (xdev_list : List xlnx_dma_dev) (pdev : Nat) (hndl : Nat) : Int :=
  if pdev = 0 then -EINVAL
  else
    match xdev_find_by_pdev xdev_list pdev with
    | none => -EINVAL
    | some xdev =>
      if xdev.id ≠ hndl then -EINVAL
      else if xdev.conf.pdev.addr ≠ pdev then -EINVAL
      else 0

/-- Minimum-width zero-padded lowercase hex, as printed by
`sprintf("%0*x")`. -/
def hexPad (w n : Nat) : List Char :=
  let ds := Nat.toDigits 16 n
  List.replicate (w - ds.length) '0' ++ ds

/-- One line of `xdev_list_dump` (source line 107):
`"qdma%05x\t%02x:%02x.%02x\n"` applied to `bdf`, bus, slot, function. -/
def dump_line (d : xlnx_dma_dev) : List Char :=
  [ 'q', 'd', 'm', 'a' ] ++ hexPad 5 d.conf.bdf ++ [ '\t' ]
  ++ hexPad 2 d.conf.pdev.busNumber ++ [ ':' ]
  ++ hexPad 2 (PCI_SLOT d.conf.pdev.devfn) ++ [ '.' ]
  ++ hexPad 2 (PCI_FUNC d.conf.pdev.devfn) ++ [ '\n' ]

/-- The loop of `xdev_list_dump` (source lines 106-113): each iteration
appends a full line with `sprintf` and only afterwards breaks if
`len >= buflen`. -/
def dump_loop : List xlnx_dma_dev → Nat → Nat → List Char
  | [], _, _ => []
  | d :: ds, buflen, len =>
    let line := dump_line d
    let len2 := len + line.length
    if buflen ≤ len2 then line else line ++ dump_loop ds buflen len2

/-- Embedding of `xdev_list_dump` (source lines 100-118).  Returns the bytes the
function writes into the caller's buffer — the emitted lines followed
by the terminating NUL that `buf[len] = '\0'` stores — together with
the returned `len`. -/
def xdev_list_dump (xdev_list : List xlnx_dma_dev) (buflen : Nat) :
    List Char × Nat :=
  let s := dump_loop xdev_list buflen 0
  (s ++ [ Char.ofNat 0 ], s.length)

/-- The dereference `(struct xlnx_dma_dev *)dev_hndl` for a handle that
is the address of a currently-registered device (the only situation in
which the lifecycle functions dereference it after validation). -/
def derefXdev (xdev_list : List xlnx_dma_dev) (hndl : Nat) : xlnx_dma_dev :=
  (xdev_list.find? (fun d => d.id = hndl)).getD default

/-- The dereference `((struct xlnx_dma_dev *)dev_hndl)->conf.pdev`
performed by the configuration accessors *before* any validation: it is
defined exactly when the handle is the address of some allocated device
object (`heap` = all live `xlnx_dma_dev` objects, registered or not). -/
def deref_conf_pdev (heap : List xlnx_dma_dev) (hndl : Nat) : Option Nat :=
  (heap.find? (fun d => d.id = hndl)).map (fun d => d.conf.pdev.addr)

/-- The validation performed by `qdma_device_get_config` /
`set_config` / `set_cfg_state` (source lines 752, 775, 801): the pdev
argument of `xdev_check_hndl` is read through the handle itself;
`none` models the undefined dereference of a handle that is not the
address of any live object. -/
def cfg_op_check (heap xdev_list : List xlnx_dma_dev) (hndl : Nat) : Option Int :=
  (deref_conf_pdev heap hndl).map (fun p => xdev_check_hndl xdev_list p hndl)

/-- Embedding of `qdma_device_get_config` (source lines 747-757): validate using the
pdev stored behind the handle, then copy the configuration out. -/
def qdma_device_get_config (xdev_list : List xlnx_dma_dev) (dev_hndl : Nat) :
    Int × Option qdma_dev_conf :=
  let xdev := derefXdev xdev_list dev_hndl
  if xdev_check_hndl xdev_list xdev.conf.pdev.addr dev_hndl < 0 then (-EINVAL, none)
  else (0, some xdev.conf)

/-- Embedding of `qdma_device_set_config` (source lines 768-781): NULL conf is
rejected, then validation with the pdev stored behind the handle, then
the whole configuration is copied in. -/
def qdma_device_set_config (xdev_list : List xlnx_dma_dev) (dev_hndl : Nat)
    (conf : Option qdma_dev_conf) : Int × List xlnx_dma_dev :=
  match conf with
  | none => (-EINVAL, xdev_list)
  | some c =>
    let xdev := derefXdev xdev_list dev_hndl
    if xdev_check_hndl xdev_list xdev.conf.pdev.addr dev_hndl < 0 then
      (-EINVAL, xdev_list)
    else
      (0, xdev_list.map (fun d => if d.id = dev_hndl then { d with conf := c } else d))

/-- Embedding of `qdma_device_set_cfg_state` (source lines 794-807): reject
`new_cfg_state > CFG_USER` before the handle check; otherwise validate
and store the new state. -/
def qdma_device_set_cfg_state (xdev_list : List xlnx_dma_dev) (dev_hndl : Nat)
    (new_cfg_state : Nat) : Int × List xlnx_dma_dev :=
  if CFG_USER < new_cfg_state then (-EINVAL, xdev_list)
  else
    let xdev := derefXdev xdev_list dev_hndl
    if xdev_check_hndl xdev_list xdev.conf.pdev.addr dev_hndl < 0 then
      (-EINVAL, xdev_list)
    else
      (0, xdev_list.map (fun d => if d.id = dev_hndl then
            { d with conf := { d.conf with cur_cfg_state := new_cfg_state } } else d))

/-- Events: one constructor per call into a PCI platform primitive or
an external collaborator, used to record which calls an operation
performed. -/
inductive Ev where
  | findByPdev (p : Nat)
  | requestRegions
  | releaseRegions
  | enableDevice
  | disableDevice
  | setMaster
  | mapBar (n : Nat)
  | unmapBar (n : Nat)
  | devInit
  | devCleanup
  | mboxInit
  | mboxStart
  | mboxCleanup
  | sriovEnable (n : Nat)
  | sriovDisable
  | vfOnline
  | vfOffline
deriving DecidableEq, Repr

/-- System state threaded through the lifecycle operations: the device
registry plus the PCI-level state of the bus device the operation works
on (resource regions claimed, device enabled, bus mastering set). -/
structure Sys where
  xdev_list : List xlnx_dma_dev
  regions_claimed : Bool
  dev_enabled : Bool
  bus_master : Bool
deriving DecidableEq, Repr, Inhabited

/-- Return values of the external collaborators and platform
primitives, supplied as an oracle (0 = success, negative = failure for
the `_rv` fields). -/
structure Oracle where
  request_regions_rv : Int
  enable_device_rv : Int
  dma_mask64_rv : Int
  dma_mask32_rv : Int
  alloc_ok : Bool
  iomap_config_ok : Bool
  id_word : Nat
  iomap_stm_ok : Bool
  stm_rev_word : Nat
  attr_mm_mode_en : Bool
  attr_st_mode_en : Bool
  device_init_rv : Int
  vf_online_rv : Int
  sriov_enable_rv : Int
deriving DecidableEq, Repr, Inhabited

/-- The trace of `xdev_check_hndl`: its registry lookup, performed only
when the pdev argument is not NULL. -/
def hndl_check_evs (pdev : Nat) : List Ev :=
  if pdev = 0 then [] else [Ev.findByPdev pdev]

/-- Effect of `xdev_flag_set(xdev, XDEV_FLAG_OFFLINE)` on a registered device. -/
def xdev_flag_set_offline (l : List xlnx_dma_dev) (hndl : Nat) : List xlnx_dma_dev :=
  l.map (fun d => if d.id = hndl then { d with offline := true } else d)

/-- Effect of `xdev_flag_clear(xdev, XDEV_FLAG_OFFLINE)` on a registered device. -/
def xdev_flag_clear_offline (l : List xlnx_dma_dev) (hndl : Nat) : List xlnx_dma_dev :=
  l.map (fun d => if d.id = hndl then { d with offline := false } else d)

/-- Embedding of `xdev_unmap_bars` (source lines 286-299): unmap and clear each BAR
pointer that is set; idempotent. -/
def xdev_unmap_bars (d : xlnx_dma_dev) : xlnx_dma_dev × List Ev :=
  let r1 := if d.regs then ({ d with regs := false }, [Ev.unmapBar QDMA_CONFIG_BAR])
            else (d, [])
  let r2 := if r1.1.stm_regs then
              ({ r1.1 with stm_regs := false }, [Ev.unmapBar STM_BAR])
            else (r1.1, [])
  (r2.1, r1.2 ++ r2.2)

/-- Embedding of `xdev_map_bars` (source lines 315-376): map the config BAR, check
the QDMA signature word (non-VF builds), optionally map and check the
STM BAR.  A config-map failure or a failed signature check leaves no
BAR mapped; an STM iomap failure leaves the config BAR mapped (the
asymmetry noted by the spec); a bad STM revision unmaps both. -/
def xdev_map_bars (B : Build) (O : Oracle) (d : xlnx_dma_dev) :
    Int × xlnx_dma_dev × List Ev :=
  let d := { d with conf := { d.conf with bar_num_config := Int.ofNat QDMA_CONFIG_BAR } }
  if O.iomap_config_ok = false then (-EINVAL, d, [Ev.mapBar QDMA_CONFIG_BAR])
  else
    let d := { d with regs := true }
    let evs := [Ev.mapBar QDMA_CONFIG_BAR]
    if B.vf = false ∧ (O.id_word &&& 0xFFFF0000) ≠ 0x1FD30000 then
      let r := xdev_unmap_bars d
      (-EINVAL, r.1, evs ++ r.2)
    else if d.conf.pdev.device = STM_ENABLED_DEVICE then
      if O.iomap_stm_ok = false then (-EINVAL, d, evs ++ [Ev.mapBar STM_BAR])
      else
        let d := { d with stm_regs := true }
        let evs := evs ++ [Ev.mapBar STM_BAR]
        let rev := O.stm_rev_word
        if (rev >>> 24) = 83 ∧ ((rev >>> 16) &&& 0xFF) = 84 ∧
            ((rev >>> 8) &&& 0xFF) = 77 ∧ (rev &&& 0xFF) ≤ STM_SUPPORTED_REV then
          (0, { d with stm_en := true, stm_rev := rev &&& 0xFF }, evs)
        else
          let r := xdev_unmap_bars d
          (-EINVAL, r.1, evs ++ r.2)
    else (0, { d with stm_en := false }, evs)

/-- Embedding of `pci_dma_mask_set` (source lines 423-441): prefer the 64-bit mask,
fall back to 32-bit, else `-EINVAL`. -/
def pci_dma_mask_set (O : Oracle) : Int :=
  if O.dma_mask64_rv = 0 then 0
  else if O.dma_mask32_rv = 0 then 0
  else -EINVAL

/-- Embedding of `xdev_alloc` (source lines 388-411), successful case: zeroed object
at address `freshId`, configuration copied in, default capability
flags. -/
def xdev_alloc (conf : qdma_dev_conf) (freshId : Nat) : xlnx_dma_dev :=
  { id := freshId, conf := conf, offline := false, regs := false,
    stm_regs := false, stm_en := false, stm_rev := 0, mod_name := [],
    flr_prsnt := true, st_mode_en := true, mm_mode_en := true,
    mm_channel_max := 1 }

/-- The device object as `qdma_device_open` constructs it before
registration (source lines 629-635): `xdev_alloc`, `strncpy` of the
module name (bounded by `QDMA_DEV_NAME_MAXLEN - 1 = 63`), then
`xdev_flag_set(xdev, XDEV_FLAG_OFFLINE)`. -/
def xdev_create (conf : qdma_dev_conf) (mod_name : List Char) (freshId : Nat) :
    xlnx_dma_dev :=
  let d := xdev_alloc conf freshId
  { d with mod_name := mod_name.take 63, offline := true }

/-- The `sprintf(xdev->conf.name, "qdma%05x-p%s", ...)` of source lines
638-640, applied to the registered object (the `%s` suffix,
`dev_name(&pdev->dev)`, lives outside this file and is omitted). -/
def set_conf_name (l : List xlnx_dma_dev) (hndl : Nat) : List xlnx_dma_dev :=
  l.map (fun d => if d.id = hndl then
    { d with conf := { d.conf with
        name := [ 'q', 'd', 'm', 'a' ] ++ hexPad 5 d.conf.bdf ++ [ '-', 'p' ] } }
  else d)

/-- Embedding of `qdma_device_offline` (source lines 473-499): NULL handle returns
silently; failed validation returns after the lookup; otherwise set the
OFFLINE flag, disable SR-IOV (or VF-offline), tear down device state,
tear down the mailbox. -/
def qdma_device_offline (B : Build) (pdev : Nat) (dev_hndl : Nat) (s : Sys) :
    Sys × List Ev :=
  if dev_hndl = 0 then (s, [])
  else if xdev_check_hndl s.xdev_list pdev dev_hndl < 0 then (s, hndl_check_evs pdev)
  else
    let s1 : Sys := { s with xdev_list := xdev_flag_set_offline s.xdev_list dev_hndl }
    let evs2 := if B.vf then [Ev.vfOffline]
                else if B.pci_iov then [Ev.sriovDisable] else []
    (s1, hndl_check_evs pdev ++ evs2 ++ [Ev.devCleanup, Ev.mboxCleanup])

/-- Embedding of `qdma_device_online` (source lines 512-553): NULL handle and failed
validation return `-EINVAL`; `qdma_device_init` failure jumps to
`cleanup_qdma`; on its success the OFFLINE flag is cleared and the
mailbox initialised, then the VF online / SR-IOV enable step runs, any
failure of which also jumps to `cleanup_qdma` (which calls
`qdma_device_cleanup` but does not restore the OFFLINE flag). -/
def qdma_device_online (B : Build) (O : Oracle) (pdev : Nat) (dev_hndl : Nat)
    (s : Sys) : Int × Sys × List Ev :=
  if dev_hndl = 0 then (-EINVAL, s, [])
  else if xdev_check_hndl s.xdev_list pdev dev_hndl < 0 then
    (-EINVAL, s, hndl_check_evs pdev)
  else
    let evs0 := hndl_check_evs pdev
    if O.device_init_rv < 0 then
      (O.device_init_rv, s, evs0 ++ [Ev.devInit, Ev.devCleanup])
    else
      let s1 : Sys := { s with xdev_list := xdev_flag_clear_offline s.xdev_list dev_hndl }
      let evs1 := evs0 ++ [Ev.devInit, Ev.mboxInit]
      if B.vf then
        if O.vf_online_rv < 0 then
          (O.vf_online_rv, s1, evs1 ++ [Ev.mboxStart, Ev.vfOnline, Ev.devCleanup])
        else (0, s1, evs1 ++ [Ev.mboxStart, Ev.vfOnline])
      else if B.pci_iov then
        let xdev := derefXdev s.xdev_list dev_hndl
        if xdev.conf.vf_max ≠ 0 then
          if O.sriov_enable_rv < 0 then
            (O.sriov_enable_rv, s1,
             evs1 ++ [Ev.sriovEnable xdev.conf.vf_max, Ev.devCleanup])
          else (0, s1, evs1 ++ [Ev.sriovEnable xdev.conf.vf_max])
        else (0, s1, evs1)
      else (0, s1, evs1)

/-- Embedding of `qdma_device_close` (source lines 708-733): NULL handle returns
silently; failed validation returns after the lookup; otherwise
offline, unmap BARs, release regions, disable device, unlink from the
registry, free the object. -/
def qdma_device_close (B : Build) (pdev : Nat) (dev_hndl : Nat) (s : Sys) :
    Sys × List Ev :=
  if dev_hndl = 0 then (s, [])
  else if xdev_check_hndl s.xdev_list pdev dev_hndl < 0 then (s, hndl_check_evs pdev)
  else
    let r1 := qdma_device_offline B pdev dev_hndl s
    let d := derefXdev r1.1.xdev_list dev_hndl
    let r2 := xdev_unmap_bars d
    let l := xdev_list_remove r1.1.xdev_list dev_hndl
    ({ r1.1 with xdev_list := l, regions_claimed := false, dev_enabled := false },
     hndl_check_evs pdev ++ r1.2 ++ r2.2 ++ [Ev.releaseRegions, Ev.disableDevice])

/-- The shared unwind of `qdma_device_open` from the `unmap_bars` label
on (source lines 683-695): unmap the BARs, unlink from the registry,
free the object, disable the PCI device, release the regions, and
return `rv` unchanged. -/
def open_unwind (rv : Int) (freshId : Nat) (s : Sys) (evs : List Ev) :
    Int × Nat × Sys × List Ev :=
  let d := derefXdev s.xdev_list freshId
  let r := xdev_unmap_bars d
  let l := xdev_list_remove s.xdev_list freshId
  (rv, 0,
   { s with xdev_list := l, dev_enabled := false, regions_claimed := false },
   evs ++ r.2 ++ [Ev.disableDevice, Ev.releaseRegions])

/-- Embedding of `qdma_device_open` (source lines 567-696).  Checks the module name
and pci device; rejects an already-attached pdev; claims regions,
enables the device, sets bus mastering and the DMA mask; allocates and
registers the device object (OFFLINE flag set); maps the BARs; on
non-VF builds reads the device attributes and requires MM or ST mode;
finally calls `qdma_device_online`, and on its failure runs
`qdma_device_offline` followed by the full `unmap_bars` unwind (the C
labels fall through).  Returns `(rv, *dev_hndl, state, events)`.
Two source details kept faithfully: the alloc-failure path jumps to
`disable_device` with `rv` still 0 from `pci_dma_mask_set`, and the
success path's copy-back of `xdev->conf` into the caller's `conf` does
not affect the returned state.  (The source dereferences `conf->pdev`
before its own `!conf` check, so `conf` is modelled as always
present.) -/
def qdma_device_open (B : Build) (O : Oracle) (mod_name : Option (List Char))
    (conf : qdma_dev_conf) (freshId : Nat) (s : Sys) :
    Int × Nat × Sys × List Ev :=
  let pdev := conf.pdev
  if mod_name = none then (QDMA_ERR_INVALID_INPUT_PARAM, 0, s, [])
  else if pdev.addr = 0 then (QDMA_ERR_INVALID_PCI_DEV, 0, s, [])
  else
    let conf := { conf with bar_num_config := -1, bar_num_user := -1 }
    match xdev_find_by_pdev s.xdev_list pdev.addr with
    | some _ => (QDMA_ERR_PCI_DEVICE_ALREADY_ATTACHED, 0, s, [Ev.findByPdev pdev.addr])
    | none =>
      let evs := [Ev.findByPdev pdev.addr, Ev.requestRegions]
      if O.request_regions_rv ≠ 0 then (O.request_regions_rv, 0, s, evs)
      else
        let s := { s with regions_claimed := true }
        let evs := evs ++ [Ev.enableDevice]
        if O.enable_device_rv ≠ 0 then
          (O.enable_device_rv, 0, { s with regions_claimed := false },
           evs ++ [Ev.releaseRegions])
        else
          let s := { s with dev_enabled := true, bus_master := true }
          let evs := evs ++ [Ev.setMaster]
          let rv := pci_dma_mask_set O
          if rv ≠ 0 then
            (rv, 0, { s with dev_enabled := false, regions_claimed := false },
             evs ++ [Ev.disableDevice, Ev.releaseRegions])
          else if O.alloc_ok = false then
            ((0 : Int), 0, { s with dev_enabled := false, regions_claimed := false },
             evs ++ [Ev.disableDevice, Ev.releaseRegions])
          else
            let xdev := xdev_create conf ((mod_name.getD []).take 63) freshId
            let l1 := set_conf_name (xdev_list_add B.vf xdev s.xdev_list) freshId
            let s := { s with xdev_list := l1 }
            let m := xdev_map_bars B O (derefXdev l1 freshId)
            let l2 := l1.map (fun d => if d.id = freshId then m.2.1 else d)
            let s := { s with xdev_list := l2 }
            let evs := evs ++ m.2.2
            if m.1 ≠ 0 then open_unwind m.1 freshId s evs
            else
              let l3 := if B.vf then l2 else
                l2.map (fun d => if d.id = freshId then
                  { d with mm_mode_en := O.attr_mm_mode_en,
                           st_mode_en := O.attr_st_mode_en } else d)
              let s := { s with xdev_list := l3 }
              let xdev3 := derefXdev l3 freshId
              if B.vf = false ∧ xdev3.mm_mode_en = false ∧ xdev3.st_mode_en = false then
                open_unwind QDMA_ERR_INTERFACE_NOT_ENABLED_IN_DEVICE freshId s evs
              else
                let o := qdma_device_online B O pdev.addr freshId s
                let evs := evs ++ o.2.2
                if o.1 < 0 then
                  let f := qdma_device_offline B pdev.addr freshId o.2.1
                  open_unwind o.1 freshId f.1 (evs ++ f.2)
                else (QDMA_OPERATION_SUCCESSFUL, freshId, o.2.1, evs)

/-! ### Concrete fixtures used by the evaluation theorems and witnesses -/

/-- Fixture: a pci device at bus 1, slot 1, function 0. -/
def exPdevA : pci_dev := { addr := 100, busNumber := 1, devfn := 8, device := 0 }

/-- Fixture: a pci device at bus 1, slot 2, function 0 — same bus as
`exPdevA` but a different slot, i.e. a different physical card on a
non-virtualized build. -/
def exPdevB : pci_dev := { addr := 200, busNumber := 1, devfn := 16, device := 0 }

/-- Fixture: a pci device at bus 2, slot 1, function 0 — a different
bus than `exPdevA`. -/
def exPdevC : pci_dev := { addr := 300, busNumber := 2, devfn := 8, device := 0 }

/-- Fixture: a device configuration for `exPdevA`. -/
def exConfA : qdma_dev_conf :=
  { pdev := exPdevA, bdf := 0, idx := 0, name := [],
    bar_num_config := 0, bar_num_user := 0, qsets_max := 8, vf_max := 0,
    cur_cfg_state := 0 }

/-- Fixture: a device configuration for `exPdevB`. -/
def exConfB : qdma_dev_conf := { exConfA with pdev := exPdevB }

/-- Fixture: a device configuration for `exPdevC`. -/
def exConfC : qdma_dev_conf := { exConfA with pdev := exPdevC }

/-- Fixture: the device object `qdma_device_open` would build for
`exConfA` at address 1. -/
def exDevA : xlnx_dma_dev := xdev_create exConfA [] 1

/-- Fixture: the device object for `exConfB` at address 2. -/
def exDevB : xlnx_dma_dev := xdev_create exConfB [] 2

/-- Fixture: the device object for `exConfC` at address 3. -/
def exDevC : xlnx_dma_dev := xdev_create exConfC [] 3

/-- Fixture: an oracle on which every platform primitive and
collaborator succeeds (the id word carries the QDMA signature). -/
def exOracle : Oracle :=
  { request_regions_rv := 0, enable_device_rv := 0,
    dma_mask64_rv := 0, dma_mask32_rv := 0, alloc_ok := true,
    iomap_config_ok := true, id_word := 0x1FD30000, iomap_stm_ok := true,
    stm_rev_word := 0, attr_mm_mode_en := true, attr_st_mode_en := true,
    device_init_rv := 0, vf_online_rv := 0, sriov_enable_rv := 0 }

/-- Fixture: the empty initial system state. -/
def exSys0 : Sys :=
  { xdev_list := [], regions_claimed := false,
    dev_enabled := false, bus_master := false }

/-- Fixture: a physical-function build with `CONFIG_PCI_IOV`. -/
def exBuildPF : Build := { vf := false, pci_iov := true }

/-- Fixture: a registered, mapped, offline device with `vf_max = 1`
(so that the SR-IOV enable step of `qdma_device_online` runs). -/
def exDevReg : xlnx_dma_dev :=
  { xdev_create { exConfA with vf_max := 1 } [] 1 with regs := true }

/-- Fixture: a system in which `exDevReg` is registered with its
regions claimed and the device enabled. -/
def exSysReg : Sys :=
  { exSys0 with xdev_list := [exDevReg], regions_claimed := true,
                dev_enabled := true }

/-- Fixture: a live but unregistered device object at address 7 — a
stale handle's referent — storing `exPdevB`. -/
def exDevStale : xlnx_dma_dev := xdev_create exConfB [] 7

/-- The per-element registry update performed by
`qdma_device_set_config` (the `memcpy` into the registered object). -/
def conf_update (h : Nat) (x : qdma_dev_conf) (a : xlnx_dma_dev) : xlnx_dma_dev :=
  if a.id = h then { a with conf := x } else a

/-! ### Helper lemmas about registry scans -/

/-- Lemma: `find?` returns the unique element satisfying the predicate. -/
theorem xq_find_eq_some_of_unique {α : Type} (p : α → Bool) :
    ∀ (l : List α) (d : α), d ∈ l → p d = true →
      (∀ a ∈ l, p a = true → a = d) → l.find? p = some d := by
  intro l
  induction l with
  | nil => intro d hd _ _; cases hd
  | cons x t ih =>
    intro d hd hpd huniq
    by_cases hx : p x = true
    · have hxd : x = d := huniq x (List.mem_cons_self x t) hx
      rw [List.find?_cons_of_pos _ hx, hxd]
    · have hdt : d ∈ t := by
        rcases List.mem_cons.mp hd with h1 | h1
        · rw [← h1] at hx; exact absurd hpd hx
        · exact h1
      have hrec := ih d hdt hpd (fun a ha hpa => huniq a (List.mem_cons_of_mem x ha) hpa)
      rw [List.find?_cons_of_neg _ (by simpa using hx), hrec]

/-- In a list whose elements have pairwise-distinct keys, two members
with the same key are equal. -/
theorem xq_eq_of_pairwise_key {α β : Type} (f : α → β) :
    ∀ (l : List α), l.Pairwise (fun a b => f a ≠ f b) →
      ∀ d ∈ l, ∀ a ∈ l, f a = f d → a = d := by
  intro l hl
  induction hl with
  | nil => intro d hd; cases hd
  | @cons x t hx _ ih =>
    intro d hd a ha hfa
    rcases List.mem_cons.mp hd with hd1 | hd1 <;> rcases List.mem_cons.mp ha with ha1 | ha1
    · rw [ha1, hd1]
    · rw [hd1] at hfa; exact absurd hfa.symm (hx a ha1)
    · rw [ha1] at hfa; exact absurd hfa (hx d hd1)
    · exact ih d hd1 a ha1 hfa

/-- Dereferencing the handle of a registered device yields that device
(registered addresses are pairwise distinct). -/
theorem xq_derefXdev_mem (l : List xlnx_dma_dev) (d : xlnx_dma_dev)
    (hids : l.Pairwise (fun a b => a.id ≠ b.id)) (hd : d ∈ l) :
    derefXdev l d.id = d := by
  unfold derefXdev
  rw [xq_find_eq_some_of_unique _ l d hd (by simp) ?uq]
  case uq =>
    intro a ha hpa
    exact xq_eq_of_pairwise_key (fun x => x.id) l hids d hd a ha (by simpa using hpa)
  rfl

/-- Lemma: `xdev_find_by_pdev` finds a registered device by its own stored
pdev when registered pdevs are pairwise distinct. -/
theorem xq_find_by_pdev_mem (l : List xlnx_dma_dev) (d : xlnx_dma_dev)
    (hpdw : l.Pairwise (fun a b => a.conf.pdev.addr ≠ b.conf.pdev.addr))
    (hd : d ∈ l) :
    xdev_find_by_pdev l d.conf.pdev.addr = some d := by
  unfold xdev_find_by_pdev
  refine xq_find_eq_some_of_unique _ l d hd (by simp) ?_
  intro a ha hpa
  exact xq_eq_of_pairwise_key (fun x => x.conf.pdev.addr) l hpdw d hd a ha
    (by simpa using hpa)

/-- Lemma: `xdev_check_hndl` accepts a registered device's own pdev and
address. -/
theorem xq_check_hndl_ok (l : List xlnx_dma_dev) (d : xlnx_dma_dev)
    (hpdw : l.Pairwise (fun a b => a.conf.pdev.addr ≠ b.conf.pdev.addr))
    (hd : d ∈ l) (hnz : d.conf.pdev.addr ≠ 0) :
    xdev_check_hndl l d.conf.pdev.addr d.id = 0 := by
  unfold xdev_check_hndl
  rw [if_neg hnz, xq_find_by_pdev_mem l d hpdw hd]
  simp

/-- Characterisation of `xdev_check_hndl` under pairwise-distinct
registered pdevs: success exactly for a non-NULL pdev that is stored by
some registered device whose address is the handle. -/
theorem xq_check_hndl_eq_zero_iff (l : List xlnx_dma_dev) (p h : Nat)
    (hpdw : l.Pairwise (fun a b => a.conf.pdev.addr ≠ b.conf.pdev.addr)) :
    xdev_check_hndl l p h = 0 ↔
      p ≠ 0 ∧ ∃ d ∈ l, d.conf.pdev.addr = p ∧ h = d.id := by
  constructor
  · intro hz
    unfold xdev_check_hndl at hz
    by_cases hp : p = 0
    · rw [if_pos hp] at hz; norm_num [EINVAL] at hz
    · rw [if_neg hp] at hz
      cases hfind : xdev_find_by_pdev l p with
      | none => rw [hfind] at hz; norm_num [EINVAL] at hz
      | some d =>
        rw [hfind] at hz
        have hz2 : (if d.id ≠ h then (-EINVAL : Int)
            else if d.conf.pdev.addr ≠ p then -EINVAL else 0) = 0 := hz
        by_cases hid : d.id = h
        · refine ⟨hp, d, List.mem_of_find?_eq_some hfind, ?_, hid.symm⟩
          simpa using List.find?_some hfind
        · rw [if_pos hid] at hz2
          norm_num [EINVAL] at hz2
  · rintro ⟨hp, d, hd, hpd, hh⟩
    rw [hh, ← hpd]
    exact xq_check_hndl_ok l d hpdw hd (by rw [hpd]; exact hp)

/-- Dereferencing through a per-element update that preserves `id`. -/
theorem xq_derefXdev_map (l : List xlnx_dma_dev) (d : xlnx_dma_dev)
    (f : xlnx_dma_dev → xlnx_dma_dev) (hf : ∀ a, (f a).id = a.id)
    (hids : l.Pairwise (fun a b => a.id ≠ b.id)) (hd : d ∈ l) :
    derefXdev (l.map f) d.id = f d := by
  unfold derefXdev
  rw [xq_find_eq_some_of_unique _ (l.map f) (f d)
        (List.mem_map_of_mem f hd) (by simp [hf]) ?uq]
  case uq =>
    intro b hb hpb
    rcases List.mem_map.mp hb with ⟨a, ha, rfl⟩
    have h1 : a.id = d.id := by simpa [hf] using hpb
    rw [xq_eq_of_pairwise_key (fun x => x.id) l hids d hd a ha h1]
  rfl

/-! ### Claim theorems -/

/-- C1 (code evaluated at the failing input): on a non-virtualized
build, with one device registered at bus 1 slot 1, inserting a device
at bus 1 slot 2 — a different card — gives the new device index 2, not
the index 1 the claim states (line 162 of the source refreshes
`last_dev` from the new device `xdev` instead of the scanned `_xdev`,
so a slot-only change never resets the counter on the final
iteration); inserting at a different bus does reset to 1.  The loop
also writes only the new device's `conf.idx`, so no other device's
index is recomputed. -/
theorem c1_insert_after_slot_change_gets_index_two :
    (xdev_list_add false exDevB (xdev_list_add false exDevA [])).map
        (fun d => d.conf.idx) = [1, 2] ∧
    (xdev_list_add false exDevC (xdev_list_add false exDevA [])).map
        (fun d => d.conf.idx) = [1, 1] := by decide

/-- C2 (code evaluated at the failing input): with one registered
device and a buffer capacity of 4, `xdev_list_dump` writes a full
19-byte line plus the NUL terminator — 20 bytes, exceeding the
capacity — because the `len >= buflen` check runs only after `sprintf`
has already written the line.  The output is NUL-terminated, but not
bounded by the capacity as the claim states. -/
theorem c2_dump_writes_past_capacity :
    ((xdev_list_dump (xdev_list_add false exDevA []) 4).1).length = 20 ∧
    ¬ ((xdev_list_dump (xdev_list_add false exDevA []) 4).1).length ≤ 4 ∧
    ((xdev_list_dump (xdev_list_add false exDevA []) 4).1).getLast?.map
        (fun c => c.toNat) = some 0 := by decide

/-- C3 (code evaluated at the failing input): when `xdev_alloc` fails
after a successful DMA-mask negotiation, `qdma_device_open` jumps to
`disable_device` with `rv` still 0, so it returns 0 — the success
code, not a negative error — with `*dev_hndl` left 0.  The cleanup
itself is complete: no registry entry, regions released, device
disabled. -/
theorem c3_open_alloc_failure_returns_success_code :
    (qdma_device_open exBuildPF { exOracle with alloc_ok := false } (some [])
        exConfA 5 exSys0).1 = 0 ∧
    (qdma_device_open exBuildPF { exOracle with alloc_ok := false } (some [])
        exConfA 5 exSys0).2.1 = 0 ∧
    (qdma_device_open exBuildPF { exOracle with alloc_ok := false } (some [])
        exConfA 5 exSys0).2.2.1.xdev_list = [] ∧
    (qdma_device_open exBuildPF { exOracle with alloc_ok := false } (some [])
        exConfA 5 exSys0).2.2.1.regions_claimed = false ∧
    (qdma_device_open exBuildPF { exOracle with alloc_ok := false } (some [])
        exConfA 5 exSys0).2.2.1.dev_enabled = false := by decide

/-- C5: `xdev_check_hndl` succeeds exactly when the supplied bus
reference is non-NULL, some currently-registered device stores that
bus reference, and the handle is that device's address (whose stored
bus reference then necessarily equals the supplied one); a NULL bus
reference, an absent device, or an identity mismatch each yield
`-EINVAL`.  Registered bus references are assumed pairwise distinct
(the invariant `qdma_device_open` maintains via its already-attached
check). -/
theorem c5_check_hndl_succeeds_iff (l : List xlnx_dma_dev) (p h : Nat)
    (hpdw : l.Pairwise (fun a b => a.conf.pdev.addr ≠ b.conf.pdev.addr)) :
    xdev_check_hndl l p h = 0 ↔
      p ≠ 0 ∧ ∃ d ∈ l, d.conf.pdev.addr = p ∧ h = d.id :=
  xq_check_hndl_eq_zero_iff l p h hpdw

/-- C5 witness: the characterisation applied to a singleton registry. -/
theorem c5_check_hndl_succeeds_iff_witness :
    xdev_check_hndl [exDevA] 100 1 = 0 :=
  (c5_check_hndl_succeeds_iff [exDevA] 100 1 (by simp)).mpr
    ⟨by decide, exDevA, by simp, by decide, by decide⟩

/-- C9: `qdma_device_online`, `qdma_device_offline` and
`qdma_device_close` called with a NULL (zero) handle return
immediately — online with `-EINVAL`, offline and close with no
result — leaving the state untouched and performing no registry
lookup and no collaborator call (empty event trace). -/
theorem c9_null_handle_is_noop (B : Build) (O : Oracle) (p : Nat) (s : Sys) :
    qdma_device_online B O p 0 s = (-EINVAL, s, []) ∧
    qdma_device_offline B p 0 s = (s, []) ∧
    qdma_device_close B p 0 s = (s, []) :=
  ⟨rfl, rfl, rfl⟩

/-- C6: `qdma_device_set_cfg_state` rejects every state above
`CFG_USER` before the handle check and without touching any state (for
every registry and every handle, valid or not), and accepts the
boundary values `CFG_UNCONFIGURED` and `CFG_USER` through a valid
handle, storing them.  (Values below `CFG_UNCONFIGURED = 0` do not
exist for the `Nat`-valued enumeration.) -/
theorem c6_set_cfg_state_range_check (l : List xlnx_dma_dev) (d : xlnx_dma_dev)
    (hids : l.Pairwise (fun a b => a.id ≠ b.id))
    (hpdw : l.Pairwise (fun a b => a.conf.pdev.addr ≠ b.conf.pdev.addr))
    (hd : d ∈ l) (hnz : d.conf.pdev.addr ≠ 0) :
    (∀ (l2 : List xlnx_dma_dev) (h2 st : Nat), CFG_USER < st →
        qdma_device_set_cfg_state l2 h2 st = (-EINVAL, l2)) ∧
    qdma_device_set_cfg_state l d.id CFG_UNCONFIGURED =
      (0, l.map (fun a => if a.id = d.id then
        { a with conf := { a.conf with cur_cfg_state := CFG_UNCONFIGURED } } else a)) ∧
    qdma_device_set_cfg_state l d.id CFG_USER =
      (0, l.map (fun a => if a.id = d.id then
        { a with conf := { a.conf with cur_cfg_state := CFG_USER } } else a)) := by
  refine ⟨?_, ?_, ?_⟩
  · intro l2 h2 st hst
    unfold qdma_device_set_cfg_state
    rw [if_pos hst]
  · unfold qdma_device_set_cfg_state
    rw [if_neg (by norm_num [CFG_USER, CFG_UNCONFIGURED])]
    rw [xq_derefXdev_mem l d hids hd]
    simp only [xq_check_hndl_ok l d hpdw hd hnz]
    norm_num
  · unfold qdma_device_set_cfg_state
    rw [if_neg (by norm_num [CFG_USER])]
    rw [xq_derefXdev_mem l d hids hd]
    simp only [xq_check_hndl_ok l d hpdw hd hnz]
    norm_num

/-- C6 witness: on a singleton registry, state 2 is rejected with the
registry untouched (even through an invalid handle), and the boundary
states 0 and 1 are accepted and stored. -/
theorem c6_set_cfg_state_range_check_witness :
    qdma_device_set_cfg_state [exDevA] 99 2 = (-EINVAL, [exDevA]) ∧
    (qdma_device_set_cfg_state [exDevA] 1 CFG_USER).1 = 0 ∧
    (derefXdev (qdma_device_set_cfg_state [exDevA] 1 CFG_USER).2 1).conf.cur_cfg_state
      = CFG_USER := by
  have h := c6_set_cfg_state_range_check [exDevA] exDevA (by simp) (by simp)
    (by simp) (by decide)
  refine ⟨h.1 [exDevA] 99 2 (by decide), ?_, ?_⟩
  · rw [show (1 : Nat) = exDevA.id from rfl, h.2.2]
  · rw [show (1 : Nat) = exDevA.id from rfl, h.2.2]
    decide

/-- C7: through a handle that passes validation, `setConfig(x)`
followed by `getConfig` returns exactly `x`, for every configuration
snapshot whose bus reference is the device's own (the validity
condition: `getConfig` re-validates through the bus reference now
stored by the snapshot, so the snapshot must name the device's pci
device). -/
theorem c7_set_get_config_roundtrip (l : List xlnx_dma_dev) (d : xlnx_dma_dev)
    (x : qdma_dev_conf)
    (hids : l.Pairwise (fun a b => a.id ≠ b.id))
    (hpdw : l.Pairwise (fun a b => a.conf.pdev.addr ≠ b.conf.pdev.addr))
    (hd : d ∈ l) (hnz : d.conf.pdev.addr ≠ 0)
    (hx : x.pdev.addr = d.conf.pdev.addr) :
    (qdma_device_set_config l d.id (some x)).1 = 0 ∧
    qdma_device_get_config (qdma_device_set_config l d.id (some x)).2 d.id =
      (0, some x) := by
  have hfid : ∀ a, (conf_update d.id x a).id = a.id := by
    intro a; unfold conf_update; by_cases hc : a.id = d.id <;> simp [hc]
  have hfd : conf_update d.id x d = { d with conf := x } := by
    unfold conf_update; simp
  have hset : qdma_device_set_config l d.id (some x) =
      (0, l.map (conf_update d.id x)) := by
    unfold qdma_device_set_config conf_update
    rw [xq_derefXdev_mem l d hids hd]
    simp only [xq_check_hndl_ok l d hpdw hd hnz]
    norm_num
  have hderef : derefXdev (l.map (conf_update d.id x)) d.id =
      { d with conf := x } := by
    rw [xq_derefXdev_map l d _ hfid hids hd, hfd]
  have hmem2 : ({ d with conf := x } : xlnx_dma_dev) ∈ l.map (conf_update d.id x) := by
    rw [← hfd]; exact List.mem_map_of_mem _ hd
  have hpd2 : ({ d with conf := x } : xlnx_dma_dev).conf.pdev.addr = x.pdev.addr := rfl
  have hfind : xdev_find_by_pdev (l.map (conf_update d.id x)) x.pdev.addr =
      some { d with conf := x } := by
    unfold xdev_find_by_pdev
    refine xq_find_eq_some_of_unique _ _ _ hmem2 (decide_eq_true hpd2) ?_
    intro b hb hpb
    rcases List.mem_map.mp hb with ⟨a, ha, rfl⟩
    by_cases haid : a.id = d.id
    · rw [xq_eq_of_pairwise_key (fun z => z.id) l hids d hd a ha haid, hfd]
    · have hfa : conf_update d.id x a = a := by unfold conf_update; rw [if_neg haid]
      rw [hfa] at hpb
      have hap : a.conf.pdev.addr = d.conf.pdev.addr := by
        have h2 := of_decide_eq_true hpb
        rw [h2, hx]
      exact absurd (congrArg xlnx_dma_dev.id
        (xq_eq_of_pairwise_key (fun z => z.conf.pdev.addr) l hpdw d hd a ha hap)) haid
  have hcheck : xdev_check_hndl (l.map (conf_update d.id x)) x.pdev.addr d.id = 0 := by
    unfold xdev_check_hndl
    rw [if_neg (by rw [hx]; exact hnz), hfind]
    simp
  refine ⟨by rw [hset], ?_⟩
  rw [hset]
  unfold qdma_device_get_config
  simp [hderef, hcheck]

/-- C7 witness: the round-trip on a singleton registry with a snapshot
that raises `qsets_max`. -/
theorem c7_set_get_config_roundtrip_witness :
    (qdma_device_set_config [exDevA] 1 (some { exConfA with qsets_max := 16 })).1 = 0 ∧
    qdma_device_get_config
        (qdma_device_set_config [exDevA] 1 (some { exConfA with qsets_max := 16 })).2 1 =
      (0, some { exConfA with qsets_max := 16 }) :=
  c7_set_get_config_roundtrip [exDevA] exDevA { exConfA with qsets_max := 16 }
    (by simp) (by simp) (by simp) (by decide) (by decide)

/-- C10: the configuration accessors pass the bus reference read from
the handle itself (`xdev->conf.pdev`) to `xdev_check_hndl`, so their
validation succeeds exactly when the handle is the address of some
currently-registered device (`heap` holds every live object, of which
the registered ones form the registry); by contrast, for the
check used by online/offline/close, where the caller supplies the bus
reference separately, success also requires the supplied reference to
match, so it can fail on a registered handle. -/
theorem c10_cfg_ops_validate_iff_registered (heap l : List xlnx_dma_dev) (h : Nat)
    (hsub : ∀ d ∈ l, d ∈ heap)
    (hheap : heap.Pairwise (fun a b => a.id ≠ b.id))
    (hpz : ∀ d ∈ l, d.conf.pdev.addr ≠ 0)
    (hpdw : l.Pairwise (fun a b => a.conf.pdev.addr ≠ b.conf.pdev.addr)) :
    (cfg_op_check heap l h = some 0 ↔ ∃ d ∈ l, d.id = h) ∧
    (∀ p, xdev_check_hndl l p h = 0 ↔
        p ≠ 0 ∧ ∃ d ∈ l, d.conf.pdev.addr = p ∧ h = d.id) := by
  constructor
  · constructor
    · intro hs
      unfold cfg_op_check deref_conf_pdev at hs
      cases hf : heap.find? (fun z => z.id = h) with
      | none => rw [hf] at hs; simp at hs
      | some d0 =>
        rw [hf] at hs
        have hs2 : xdev_check_hndl l d0.conf.pdev.addr h = 0 := by simpa using hs
        rcases (xq_check_hndl_eq_zero_iff l _ h hpdw).mp hs2 with ⟨_, d, hdl, _, hh⟩
        exact ⟨d, hdl, hh.symm⟩
    · rintro ⟨d, hdl, hdh⟩
      subst hdh
      have hdheap := hsub d hdl
      have hf : heap.find? (fun z => z.id = d.id) = some d := by
        refine xq_find_eq_some_of_unique _ heap d hdheap (by simp) ?_
        intro a ha hpa
        exact xq_eq_of_pairwise_key (fun z => z.id) heap hheap d hdheap a ha
          (of_decide_eq_true hpa)
      unfold cfg_op_check deref_conf_pdev
      rw [hf]
      simp [xq_check_hndl_ok l d hpdw hdl (hpz d hdl)]
  · intro p; exact xq_check_hndl_eq_zero_iff l p h hpdw

/-- C10 witness: with live objects at addresses 1 (registered) and 7
(stale, unregistered), the configuration-accessor validation accepts
handle 1 and rejects handle 7. -/
theorem c10_cfg_ops_validate_iff_registered_witness :
    cfg_op_check [exDevA, exDevStale] [exDevA] 1 = some 0 ∧
    ¬ cfg_op_check [exDevA, exDevStale] [exDevA] 7 = some 0 := by
  have h1 := c10_cfg_ops_validate_iff_registered [exDevA, exDevStale] [exDevA] 1
    (by decide) (by decide) (by decide) (by decide)
  have h7 := c10_cfg_ops_validate_iff_registered [exDevA, exDevStale] [exDevA] 7
    (by decide) (by decide) (by decide) (by decide)
  refine ⟨h1.1.mpr ⟨exDevA, by simp, rfl⟩, fun hc => ?_⟩
  rcases h7.1.mp hc with ⟨d, hd, hid⟩
  rw [List.mem_singleton.mp hd] at hid
  exact absurd hid (by decide)

/-- C8 counterexample: on a physical-function build with `vf_max = 1`,
when device init succeeds but the SR-IOV enable step of the online
sequence fails, `qdma_device_online` returns the failure code yet the
device's offline flag ends up cleared — the flag was cleared right
after `qdma_device_init`, before the failing step, and the cleanup
path does not restore it.  This contradicts the claim that on any
failure within the online sequence the flag does not end up cleared. -/
theorem c8_online_late_failure_leaves_flag_cleared :
    (qdma_device_online exBuildPF { exOracle with sriov_enable_rv := -5 } 100 1
        exSysReg).1 = -5 ∧
    (derefXdev (qdma_device_online exBuildPF { exOracle with sriov_enable_rv := -5 }
        100 1 exSysReg).2.1.xdev_list 1).offline = false := by decide

/-- C8 as amended: the offline flag is set when `qdma_device_open`
creates the object, and the online sequence clears it exactly when the
`qdma_device_init` collaborator succeeds — before the mailbox and
virtualization steps — so a device-init failure leaves it set, while a
failure in a later step of the online sequence leaves it cleared. -/
theorem c8_offline_flag_cleared_iff_device_init_succeeds (B : Build) (O : Oracle)
    (s : Sys) (d : xlnx_dma_dev)
    (hd : d ∈ s.xdev_list) (hoff : d.offline = true) (hid0 : d.id ≠ 0)
    (hids : s.xdev_list.Pairwise (fun a b => a.id ≠ b.id))
    (hpdw : s.xdev_list.Pairwise (fun a b => a.conf.pdev.addr ≠ b.conf.pdev.addr))
    (hnz : d.conf.pdev.addr ≠ 0) :
    (∀ (c : qdma_dev_conf) (m : List Char) (i : Nat),
        (xdev_create c m i).offline = true) ∧
    ((derefXdev (qdma_device_online B O d.conf.pdev.addr d.id s).2.1.xdev_list
        d.id).offline = false ↔ 0 ≤ O.device_init_rv) := by
  refine ⟨fun c m i => rfl, ?_⟩
  have hchk : ¬ xdev_check_hndl s.xdev_list d.conf.pdev.addr d.id < 0 := by
    rw [xq_check_hndl_ok s.xdev_list d hpdw hd hnz]; norm_num
  have hst : (qdma_device_online B O d.conf.pdev.addr d.id s).2.1 =
      if O.device_init_rv < 0 then s
      else { s with xdev_list := xdev_flag_clear_offline s.xdev_list d.id } := by
    unfold qdma_device_online
    rw [if_neg hid0, if_neg hchk]
    by_cases hin : O.device_init_rv < 0
    · rw [if_pos hin, if_pos hin]
    · rw [if_neg hin, if_neg hin]
      dsimp only
      split
      · split <;> rfl
      · split
        · split
          · split <;> rfl
          · rfl
        · rfl
  rw [hst]
  by_cases hin : O.device_init_rv < 0
  · rw [if_pos hin]
    rw [xq_derefXdev_mem s.xdev_list d hids hd, hoff]
    simp
    omega
  · rw [if_neg hin]
    have hclr : derefXdev (xdev_flag_clear_offline s.xdev_list d.id) d.id =
        { d with offline := false } := by
      unfold xdev_flag_clear_offline
      rw [xq_derefXdev_map s.xdev_list d _
        (fun a => by by_cases hc : a.id = d.id <;> simp [hc]) hids hd]
      simp
    simp only [hclr]
    simp
    omega

/-- C8 amended-claim witness: with every collaborator succeeding, the
flag ends up cleared on the fixture device. -/
theorem c8_offline_flag_cleared_iff_device_init_succeeds_witness :
    (derefXdev (qdma_device_online exBuildPF exOracle 100 1 exSysReg).2.1.xdev_list
        1).offline = false := by
  have h := c8_offline_flag_cleared_iff_device_init_succeeds exBuildPF exOracle
    exSysReg exDevReg (by decide) (by decide) (by decide) (by decide) (by decide)
    (by decide)
  exact h.2.mpr (by decide)

/-- C4 counterexample: with every step succeeding until
`qdma_device_online` fails (device init returns -5),
`qdma_device_open` *does* re-release the bus resources it claimed in
the same call — `pci_release_regions` runs (the `cleanup_qdma` label
falls through `unmap_bars` and `disable_device` to `release_regions`)
and the claimed flag ends false — contradicting the claim that the
online-failure path does not re-release them. -/
theorem c4_open_online_failure_does_release :
    (qdma_device_open exBuildPF { exOracle with device_init_rv := -5 } (some [])
        exConfA 5 exSys0).1 = -5 ∧
    Ev.releaseRegions ∈ (qdma_device_open exBuildPF
        { exOracle with device_init_rv := -5 } (some []) exConfA 5 exSys0).2.2.2 ∧
    Ev.disableDevice ∈ (qdma_device_open exBuildPF
        { exOracle with device_init_rv := -5 } (some []) exConfA 5 exSys0).2.2.2 ∧
    (qdma_device_open exBuildPF { exOracle with device_init_rv := -5 } (some [])
        exConfA 5 exSys0).2.2.1.regions_claimed = false := by decide

/-- C4 as amended: when open reaches the online step and online fails,
open runs the offline-equivalent cleanup and then falls through the
shared unwind — unmapping the BARs, deregistering and freeing the
object, disabling the bus device and releasing the claimed bus
resources — the same resources the standalone close path releases.
Shown for both online-failure modes (device-init failure, with the
full result including the event order, and SR-IOV-enable failure),
alongside a close call that also releases the regions. -/
theorem c4_open_online_failure_full_unwind :
    qdma_device_open exBuildPF { exOracle with device_init_rv := -5 } (some [])
        exConfA 5 exSys0 =
      (-5, 0,
       { xdev_list := [], regions_claimed := false, dev_enabled := false,
         bus_master := true },
       [Ev.findByPdev 100, Ev.requestRegions, Ev.enableDevice, Ev.setMaster,
        Ev.mapBar 0, Ev.findByPdev 100, Ev.devInit, Ev.devCleanup,
        Ev.findByPdev 100, Ev.sriovDisable, Ev.devCleanup, Ev.mboxCleanup,
        Ev.unmapBar 0, Ev.disableDevice, Ev.releaseRegions]) ∧
    ((qdma_device_open exBuildPF { exOracle with sriov_enable_rv := -7 } (some [])
        { exConfA with vf_max := 1 } 5 exSys0).1 = -7 ∧
      (qdma_device_open exBuildPF { exOracle with sriov_enable_rv := -7 } (some [])
        { exConfA with vf_max := 1 } 5 exSys0).2.2.1.regions_claimed = false ∧
      (qdma_device_open exBuildPF { exOracle with sriov_enable_rv := -7 } (some [])
        { exConfA with vf_max := 1 } 5 exSys0).2.2.1.dev_enabled = false ∧
      (qdma_device_open exBuildPF { exOracle with sriov_enable_rv := -7 } (some [])
        { exConfA with vf_max := 1 } 5 exSys0).2.2.1.xdev_list = [] ∧
      Ev.releaseRegions ∈ (qdma_device_open exBuildPF
        { exOracle with sriov_enable_rv := -7 } (some [])
        { exConfA with vf_max := 1 } 5 exSys0).2.2.2) ∧
    Ev.releaseRegions ∈ (qdma_device_close exBuildPF 100 1 exSysReg).2 := by decide
